import Mathlib

/-!
Shallow embedding of `evapotranspiration.py`: a batch pipeline computing
daily reference evapotranspiration (ET0) with the FAO Penman-Monteith
method.  The per-record numeric state is modelled over the real numbers.
The Python `math.acos` domain failure (a raised `ValueError` when the
argument leaves `[-1, 1]`) is modelled by an `Option` result that
propagates through the radiation step.  The degenerate float behaviour of
the slope function at `Tmean = -237.3` (numpy float64 scalars: division
by zero yields a signed infinity or nan, with only a warning) is modelled
separately by an extended value type `EFloat` carrying exact real finite
parts together with the IEEE-754 special values.
-/

namespace Evapo

noncomputable section

/-- Constant `albedo = 0.23` from the source. -/
def albedo : ℝ := 0.23

/-- Constant `a_s = 0.25` from the source (Angstrom coefficient). -/
def a_s : ℝ := 0.25

/-- Constant `b_s = 0.50` from the source (Angstrom coefficient). -/
def b_s : ℝ := 0.50

/-- Source `calculate_VPD(Tmin, Tmax, RHmin, RHmax)` (lines 50-60):
returns the pair `(es, ea)` of mean saturation vapour pressure and actual
vapour pressure. -/
def calculate_VPD (Tmin Tmax RHmin RHmax : ℝ) : ℝ × ℝ :=
  let e0T_min := 0.618 * Real.exp ((17.27 * Tmin) / (Tmin + 237.3))
  let e0T_max := 0.618 * Real.exp ((17.27 * Tmax) / (Tmax + 237.3))
  ((e0T_min + e0T_max) / 2, ((e0T_min * RHmax) + (e0T_max * RHmin)) / 200)

/-- Saturation vapour pressure at temperature `T`, the subexpression the
source evaluates at `Tmin` and at `Tmax` inside `calculate_VPD`, and the
`satVP` of the spec. -/
def satVP (T : ℝ) : ℝ := 0.618 * Real.exp ((17.27 * T) / (T + 237.3))

/-- Source `calculate_delta(T_mean)` (lines 63-66): slope of the
saturation vapour pressure curve. -/
def calculate_delta (T_mean : ℝ) : ℝ :=
  4098 * 0.6108 * Real.exp (17.27 * T_mean / (T_mean + 237.3)) / ((T_mean + 237.3) ^ 2)

/-- Python `math.acos`: raises `ValueError` (modelled as `none`) when the
argument lies outside `[-1, 1]`, otherwise returns the arccosine. -/
def acosPy (x : ℝ) : Option ℝ :=
  if -1 ≤ x ∧ x ≤ 1 then some (Real.arccos x) else none

/-- Net longwave radiation, line 83 of the source:
`4.903e-09 * (((T_min+273.16)**4+(T_max + 273)**4)/2) * (0.34 - (0.14 * (ea ** 0.5))) * (1.35 * Rs / Rs0 - 0.35)`,
where `ea ** 0.5` is real exponentiation. -/
def Rnl_term (T_min T_max ea Rs Rs0 : ℝ) : ℝ :=
  4.903e-9 * (((T_min + 273.16) ^ 4 + (T_max + 273) ^ 4) / 2) *
    (0.34 - (0.14 * (ea ^ (0.5 : ℝ)))) * (1.35 * Rs / Rs0 - 0.35)

/-- Source `Rn(lat, doy, n, ea, T_min, T_max, altitude)` (lines 69-85):
net solar radiation.  The `math.acos` call fails outside `[-1, 1]`
(uncaught `ValueError`), so the result is an `Option`: `none` means the
call raised and the remaining lines never ran. -/
def Rn (lat doy n ea T_min T_max altitude : ℝ) : Option ℝ :=
  let latitude := lat * Real.pi / 180
  let d_r := 1 + 0.033 * Real.cos (2 * Real.pi * doy / 365)
  let solar_declination := 0.409 * Real.sin (2 * Real.pi * doy / 365 - 1.39)
  (acosPy (-Real.tan latitude * Real.tan solar_declination)).map fun sunset_hour_angle =>
    let Ra := 24 * 60 / Real.pi * 0.082 * d_r *
      (sunset_hour_angle * Real.sin latitude * Real.sin solar_declination +
        Real.cos latitude * Real.cos solar_declination * Real.sin sunset_hour_angle)
    let N := (24 * sunset_hour_angle) / Real.pi
    let Rs := (a_s + ((b_s * n) / N)) * Ra
    let Rs0 := (0.75 + (2e-5) * altitude) * Ra
    let Rns := (1 - albedo) * Rs
    let Rnl := Rnl_term T_min T_max ea Rs Rs0
    Rns - Rnl

/-- Source `penman_monteith(T, delta, wind_speed, Rn, air_pressure, gamma, ea, es)`
(lines 88-90).  The parameter `Rn` shadows the radiation function, exactly
as in the source. -/
def penman_monteith (T delta wind_speed Rn air_pressure gamma ea es : ℝ) : ℝ :=
  ((0.408 * delta * Rn) + (gamma * (900 / (T + 273)) * wind_speed * (es - ea))) /
    (delta + gamma * (1 + (0.34 * wind_speed)))

/-- Rounding to one decimal place, modelling Python `round(x, 1)`.  Exact
tie behaviour (Python rounds ties to even) is abstracted; both sides of
the pipeline claim round with this same function, so no claim depends on
ties. -/
def round1 (x : ℝ) : ℝ := ((round (10 * x) : ℤ) : ℝ) / 10

/-- One row of the input table (spec section 6): the eleven numeric
fields the pipeline reads. -/
structure WeatherRecord where
  lat : ℝ
  Tmin : ℝ
  Tmax : ℝ
  Tmean : ℝ
  RHmin : ℝ
  RHmax : ℝ
  uz : ℝ
  n : ℝ
  pressure : ℝ
  doy : ℝ
  z : ℝ

/-- Per-record body of `main` (lines 101-124 of the source): compute
`delta`, `gamma`, `(es, ea)`, the net radiation, then the rounded ET0
attached to the record; `none` when the `acos` call inside `Rn` raises
(in which case the run aborts and nothing is attached). -/
def main_step (r : WeatherRecord) : Option ℝ :=
  let delta := calculate_delta r.Tmean
  let gamma := 0.000665 * r.pressure
  let esea := calculate_VPD r.Tmin r.Tmax r.RHmin r.RHmax
  let es := esea.1
  let ea := esea.2
  (Rn r.lat r.doy r.n ea r.Tmin r.Tmax r.z).map fun solar_radiation =>
    round1 (penman_monteith r.Tmean delta r.uz solar_radiation r.pressure gamma ea es)

/-- Claim C1: for every input record the pipeline computes ET0 by the
Penman-Monteith combination from `delta`, `gamma = 0.000665 * pressure`,
`(es, ea)` from the vapour-pressure step, and the net radiation computed
with that same `ea`; the attached result is that value rounded to one
decimal place (and nothing is attached when the radiation step fails). -/
theorem c1_pipeline_penman_monteith (r : WeatherRecord) :
    main_step r =
      (Rn r.lat r.doy r.n (calculate_VPD r.Tmin r.Tmax r.RHmin r.RHmax).2
          r.Tmin r.Tmax r.z).map fun rn =>
        round1 ((0.408 * calculate_delta r.Tmean * rn +
            (0.000665 * r.pressure) * (900 / (r.Tmean + 273)) * r.uz *
              ((calculate_VPD r.Tmin r.Tmax r.RHmin r.RHmax).1 -
                (calculate_VPD r.Tmin r.Tmax r.RHmin r.RHmax).2)) /
          (calculate_delta r.Tmean + (0.000665 * r.pressure) * (1 + 0.34 * r.uz))) :=
  rfl

/-- Claim C2: `calculate_VPD` returns `es` equal to the arithmetic mean
of `satVP Tmin` and `satVP Tmax`, and `ea` equal to
`(satVP Tmin * RHmax + satVP Tmax * RHmin) / 200`. -/
theorem c2_vpd_formula (Tmin Tmax RHmin RHmax : ℝ) :
    calculate_VPD Tmin Tmax RHmin RHmax =
      ((satVP Tmin + satVP Tmax) / 2,
        (satVP Tmin * RHmax + satVP Tmax * RHmin) / 200) :=
  rfl

/-- Claim C3: the net longwave term of the radiation step is
`4.903e-9 * ((Tmin+273.16)^4 + (Tmax+273)^4)/2 * (0.34 - 0.14*sqrt ea) * (1.35*Rs/Rs0 - 0.35)`,
with the asymmetric offsets `273.16` on `Tmin` and `273` on `Tmax`
exactly as in the source. -/
theorem c3_rnl_asymmetric_offsets (T_min T_max ea Rs Rs0 : ℝ) :
    Rnl_term T_min T_max ea Rs Rs0 =
      4.903e-9 * (((T_min + 273.16) ^ 4 + (T_max + 273) ^ 4) / 2) *
        (0.34 - 0.14 * Real.sqrt ea) * (1.35 * Rs / Rs0 - 0.35) := by
  unfold Rnl_term
  rw [Real.sqrt_eq_rpow, (by norm_num : (1 / (2 : ℝ)) = (0.5 : ℝ))]

/-- Claim C6: with equal humidities `RHmin = RHmax = RH` the actual
vapour pressure collapses to `(satVP Tmin + satVP Tmax)/2 * RH/100`,
that is, `es * RH/100`. -/
theorem c6_ea_equal_humidity (Tmin Tmax RH : ℝ) :
    (calculate_VPD Tmin Tmax RH RH).2 =
      (satVP Tmin + satVP Tmax) / 2 * RH / 100 := by
  show ((satVP Tmin * RH) + (satVP Tmax * RH)) / 200 = (satVP Tmin + satVP Tmax) / 2 * RH / 100
  ring

/-- Claim C9: `penman_monteith` does not depend on its `air_pressure`
argument; pressure reaches ET0 only through the `gamma` computed by the
caller. -/
theorem c9_air_pressure_unused (T delta wind_speed rn p1 p2 gamma ea es : ℝ) :
    penman_monteith T delta wind_speed rn p1 gamma ea es =
      penman_monteith T delta wind_speed rn p2 gamma ea es :=
  rfl

/-- Strict monotonicity of the saturation vapour pressure subexpression on
temperatures above the singularity at `-237.3`. -/
lemma satVP_strictMono {T1 T2 : ℝ} (hlo : -237.3 < T1) (hlt : T1 < T2) :
    satVP T1 < satVP T2 := by
  unfold satVP
  have hd1 : (0 : ℝ) < T1 + 237.3 := by linarith
  have hd2 : (0 : ℝ) < T2 + 237.3 := by linarith
  have harg : (17.27 * T1) / (T1 + 237.3) < (17.27 * T2) / (T2 + 237.3) := by
    rw [div_lt_div_iff₀ hd1 hd2]
    nlinarith
  have := Real.exp_lt_exp.mpr harg
  nlinarith [Real.exp_pos ((17.27 * T1) / (T1 + 237.3))]

/-- Claim C7: the `es` returned by `calculate_VPD` increases strictly with
`Tmin` and with `Tmax`, the other inputs held fixed, for temperatures
above `-237.3`. -/
theorem c7_es_monotone (T1 T2 Tother RHmin RHmax : ℝ)
    (hlo : -237.3 < T1) (hlt : T1 < T2) :
    (calculate_VPD T1 Tother RHmin RHmax).1 < (calculate_VPD T2 Tother RHmin RHmax).1 ∧
      (calculate_VPD Tother T1 RHmin RHmax).1 < (calculate_VPD Tother T2 RHmin RHmax).1 := by
  have key := satVP_strictMono hlo hlt
  constructor
  · show (satVP T1 + satVP Tother) / 2 < (satVP T2 + satVP Tother) / 2
    linarith
  · show (satVP Tother + satVP T1) / 2 < (satVP Tother + satVP T2) / 2
    linarith

/-- Witness for claim C7 at `T1 = 10`, `T2 = 20`, other temperature `15`,
humidities `40` and `80`. -/
theorem c7_es_monotone_witness :
    (-237.3 < (10 : ℝ) ∧ (10 : ℝ) < 20) ∧
      ((calculate_VPD 10 15 40 80).1 < (calculate_VPD 20 15 40 80).1 ∧
        (calculate_VPD 15 10 40 80).1 < (calculate_VPD 15 20 40 80).1) :=
  ⟨⟨by norm_num, by norm_num⟩,
    c7_es_monotone 10 20 15 40 80 (by norm_num) (by norm_num)⟩

/-- Positivity of the saturation vapour pressure subexpression. -/
lemma satVP_pos (T : ℝ) : 0 < satVP T := by
  unfold satVP
  positivity

/-- Claim C10: with both temperatures above `-237.3` and both relative
humidities in `[0, 100]`, the pair returned by `calculate_VPD` satisfies
`0 ≤ ea ≤ es`: the vapour pressure deficit is non-negative. -/
theorem c10_deficit_nonneg (Tmin Tmax RHmin RHmax : ℝ)
    (hT1 : -237.3 < Tmin) (hT2 : -237.3 < Tmax)
    (h1 : 0 ≤ RHmin) (h2 : RHmin ≤ 100) (h3 : 0 ≤ RHmax) (h4 : RHmax ≤ 100) :
    0 ≤ (calculate_VPD Tmin Tmax RHmin RHmax).2 ∧
      (calculate_VPD Tmin Tmax RHmin RHmax).2 ≤ (calculate_VPD Tmin Tmax RHmin RHmax).1 := by
  have p1 := satVP_pos Tmin
  have p2 := satVP_pos Tmax
  constructor
  · show 0 ≤ (satVP Tmin * RHmax + satVP Tmax * RHmin) / 200
    have := mul_nonneg p1.le h3
    have := mul_nonneg p2.le h1
    linarith
  · show (satVP Tmin * RHmax + satVP Tmax * RHmin) / 200 ≤ (satVP Tmin + satVP Tmax) / 2
    nlinarith [mul_le_mul_of_nonneg_left h4 p1.le, mul_le_mul_of_nonneg_left h2 p2.le]

/-- Witness for claim C10 at `Tmin = 10`, `Tmax = 20`, `RHmin = 40`,
`RHmax = 80`. -/
theorem c10_deficit_nonneg_witness :
    ((-237.3 < (10 : ℝ)) ∧ (-237.3 < (20 : ℝ)) ∧
      (0 ≤ (40 : ℝ)) ∧ ((40 : ℝ) ≤ 100) ∧ (0 ≤ (80 : ℝ)) ∧ ((80 : ℝ) ≤ 100)) ∧
      (0 ≤ (calculate_VPD 10 20 40 80).2 ∧
        (calculate_VPD 10 20 40 80).2 ≤ (calculate_VPD 10 20 40 80).1) :=
  ⟨⟨by norm_num, by norm_num, by norm_num, by norm_num, by norm_num, by norm_num⟩,
    c10_deficit_nonneg 10 20 40 80 (by norm_num) (by norm_num) (by norm_num)
      (by norm_num) (by norm_num) (by norm_num)⟩

/-- Lower bound on the cosine of one degree, via
`cos x = 1 - sin x ^ 2 / (1 + cos x) ≥ 1 - sin x ^ 2 ≥ 1 - x ^ 2`. -/
lemma cos_one_degree_lb : 0.99969 < Real.cos (Real.pi / 180) := by
  have hx0 : (0 : ℝ) < Real.pi / 180 := by positivity
  have hxlt : Real.pi / 180 < 0.017454 := by linarith [Real.pi_lt_d6]
  have hs0 : 0 < Real.sin (Real.pi / 180) :=
    Real.sin_pos_of_pos_of_lt_pi hx0 (by linarith [Real.pi_gt_d6])
  have hs1 : Real.sin (Real.pi / 180) < Real.pi / 180 := Real.sin_lt hx0
  have hc0 : 0 < Real.cos (Real.pi / 180) :=
    Real.cos_pos_of_mem_Ioo ⟨by linarith [Real.pi_gt_d6], by linarith [Real.pi_gt_d6]⟩
  have hc1 : Real.cos (Real.pi / 180) ≤ 1 := Real.cos_le_one _
  have hpyth : Real.sin (Real.pi / 180) ^ 2 + Real.cos (Real.pi / 180) ^ 2 = 1 :=
    Real.sin_sq_add_cos_sq _
  nlinarith [mul_nonneg hc0.le (sub_nonneg.mpr hc1), mul_pos hs0 hs0]

/-- Upper bound on the tangent of one degree. -/
lemma tan_one_degree_ub : Real.tan (Real.pi / 180) < 0.01746 := by
  have hx0 : (0 : ℝ) < Real.pi / 180 := by positivity
  have hxlt : Real.pi / 180 < 0.017454 := by linarith [Real.pi_lt_d6]
  have hs1 : Real.sin (Real.pi / 180) < Real.pi / 180 := Real.sin_lt hx0
  have hc0 : 0 < Real.cos (Real.pi / 180) :=
    Real.cos_pos_of_mem_Ioo ⟨by linarith [Real.pi_gt_d6], by linarith [Real.pi_gt_d6]⟩
  rw [Real.tan_eq_sin_div_cos, div_lt_iff₀ hc0]
  nlinarith [cos_one_degree_lb]

/-- Positivity of the tangent of one degree. -/
lemma tan_one_degree_pos : 0 < Real.tan (Real.pi / 180) :=
  Real.tan_pos_of_pos_of_lt_pi_div_two (by positivity) (by linarith [Real.pi_gt_d6])

/-- Lower bound on the tangent of the radian latitude of the 89th
parallel: `tan (89 * pi / 180) = (tan (pi / 180))⁻¹ > 57`. -/
lemma tan_lat89_lb : 57 < Real.tan (89 * Real.pi / 180) := by
  have h : (89 : ℝ) * Real.pi / 180 = Real.pi / 2 - Real.pi / 180 := by ring
  rw [h, Real.tan_pi_div_two_sub, ← one_div, lt_div_iff₀ tan_one_degree_pos]
  nlinarith [tan_one_degree_ub, tan_one_degree_pos]

/-- Lower bound on the sine inside the solar declination at day of year
100: the angle lies in `(0.3314, 0.3315)`. -/
lemma sin_decl_doy100_lb : 0.32 < Real.sin (2 * Real.pi * 100 / 365 - 1.39) := by
  have h1 : 0.3314 < 2 * Real.pi * 100 / 365 - 1.39 := by linarith [Real.pi_gt_d6]
  have h2 : 2 * Real.pi * 100 / 365 - 1.39 < 0.3315 := by linarith [Real.pi_lt_d6]
  have h3 := Real.sin_gt_sub_cube (by linarith) (by linarith :
    2 * Real.pi * 100 / 365 - 1.39 ≤ 1)
  nlinarith [sq_nonneg (2 * Real.pi * 100 / 365 - 1.39)]

/-- Lower bound on the tangent of the solar declination at day of year
100. -/
lemma tan_decl_doy100_lb :
    0.13 < Real.tan (0.409 * Real.sin (2 * Real.pi * 100 / 365 - 1.39)) := by
  have hs1 := sin_decl_doy100_lb
  have hs2 : Real.sin (2 * Real.pi * 100 / 365 - 1.39) ≤ 1 := Real.sin_le_one _
  have hd0 : 0 < 0.409 * Real.sin (2 * Real.pi * 100 / 365 - 1.39) := by nlinarith
  have hdlt : 0.409 * Real.sin (2 * Real.pi * 100 / 365 - 1.39) < Real.pi / 2 := by
    nlinarith [Real.pi_gt_d6]
  nlinarith [Real.lt_tan hd0 hdlt]

/-- At latitude 89 and day of year 100 the product of tangents feeding the
`acos` call exceeds 1: a polar-condition input. -/
lemma tan_prod_gt_one :
    1 < Real.tan (89 * Real.pi / 180) *
        Real.tan (0.409 * Real.sin (2 * Real.pi * 100 / 365 - 1.39)) := by
  nlinarith [tan_lat89_lb, tan_decl_doy100_lb]

/-- Claim C4 counterexample: at the polar input `lat = 89`, `doy = 100`
(with `n = 5`, `ea = 1`, `Tmin = 0`, `Tmax = 10`, `altitude = 100`) the
radiation step produces no value at all: the `acos` call raises and
nothing, NaN included, propagates into the output. -/
theorem c4_polar_counterexample : Rn 89 100 5 1 0 10 100 = none := by
  have hp := tan_prod_gt_one
  have hnone : acosPy (-(Real.tan ((89 : ℝ) * Real.pi / 180) *
      Real.tan (0.409 * Real.sin (2 * Real.pi * (100 : ℝ) / 365 - 1.39)))) = none := by
    unfold acosPy
    rw [if_neg]
    rintro ⟨h1, h2⟩
    linarith
  simp [Rn, hnone]

/-- Claim C4 (amended): for every input with
`|tan (lat in radians) * tan (solar declination)| > 1` (polar day or
night), the sunset-hour-angle step fails with an unguarded domain error:
the `math.acos` call raises `ValueError`, the rest of the radiation
computation never runs, and no value (NaN or otherwise) is produced for
the record. -/
theorem c4_polar_acos_aborts (lat doy n ea T_min T_max altitude : ℝ)
    (h : 1 < |Real.tan (lat * Real.pi / 180) *
        Real.tan (0.409 * Real.sin (2 * Real.pi * doy / 365 - 1.39))|) :
    Rn lat doy n ea T_min T_max altitude = none := by
  have hnone : acosPy (-(Real.tan (lat * Real.pi / 180) *
      Real.tan (0.409 * Real.sin (2 * Real.pi * doy / 365 - 1.39)))) = none := by
    unfold acosPy
    rw [if_neg]
    rintro ⟨h1, h2⟩
    rcases lt_abs.mp h with hgt | hgt <;> linarith
  simp [Rn, hnone]

/-- Witness for claim C4 (amended) at the polar input of the
counterexample. -/
theorem c4_polar_acos_aborts_witness :
    1 < |Real.tan ((89 : ℝ) * Real.pi / 180) *
        Real.tan (0.409 * Real.sin (2 * Real.pi * (100 : ℝ) / 365 - 1.39))| ∧
      Rn 89 100 (-3) 2 (-5) 7 321 = none :=
  ⟨lt_of_lt_of_le tan_prod_gt_one (le_abs_self _),
    c4_polar_acos_aborts 89 100 (-3) 2 (-5) 7 321
      (lt_of_lt_of_le tan_prod_gt_one (le_abs_self _))⟩

/-- Extended value modelling a numpy float64 scalar: an exact real finite
part plus the IEEE-754 special values.  Rounding of finite results and
signed zeros are not modelled; the claims exercised here depend only on
which operations leave the finite range. -/
inductive EFloat where
  | fin : ℝ → EFloat
  | posInf : EFloat
  | negInf : EFloat
  | nan : EFloat

/-- Addition on extended values (IEEE-754: opposite infinities give nan). -/
def addE : EFloat → EFloat → EFloat
  | EFloat.nan, _ => EFloat.nan
  | _, EFloat.nan => EFloat.nan
  | EFloat.fin a, EFloat.fin b => EFloat.fin (a + b)
  | EFloat.fin _, EFloat.posInf => EFloat.posInf
  | EFloat.fin _, EFloat.negInf => EFloat.negInf
  | EFloat.posInf, EFloat.fin _ => EFloat.posInf
  | EFloat.negInf, EFloat.fin _ => EFloat.negInf
  | EFloat.posInf, EFloat.posInf => EFloat.posInf
  | EFloat.negInf, EFloat.negInf => EFloat.negInf
  | EFloat.posInf, EFloat.negInf => EFloat.nan
  | EFloat.negInf, EFloat.posInf => EFloat.nan

/-- Multiplication on extended values (IEEE-754: infinity times zero gives
nan). -/
def mulE : EFloat → EFloat → EFloat
  | EFloat.nan, _ => EFloat.nan
  | _, EFloat.nan => EFloat.nan
  | EFloat.fin a, EFloat.fin b => EFloat.fin (a * b)
  | EFloat.fin a, EFloat.posInf =>
      if 0 < a then EFloat.posInf else if a < 0 then EFloat.negInf else EFloat.nan
  | EFloat.fin a, EFloat.negInf =>
      if 0 < a then EFloat.negInf else if a < 0 then EFloat.posInf else EFloat.nan
  | EFloat.posInf, EFloat.fin b =>
      if 0 < b then EFloat.posInf else if b < 0 then EFloat.negInf else EFloat.nan
  | EFloat.negInf, EFloat.fin b =>
      if 0 < b then EFloat.negInf else if b < 0 then EFloat.posInf else EFloat.nan
  | EFloat.posInf, EFloat.posInf => EFloat.posInf
  | EFloat.posInf, EFloat.negInf => EFloat.negInf
  | EFloat.negInf, EFloat.posInf => EFloat.negInf
  | EFloat.negInf, EFloat.negInf => EFloat.posInf

/-- Division on extended values: numpy float64 division by zero yields a
signed infinity for a nonzero dividend and nan for `0 / 0`, emitting only
a RuntimeWarning rather than raising. -/
def divE : EFloat → EFloat → EFloat
  | EFloat.nan, _ => EFloat.nan
  | _, EFloat.nan => EFloat.nan
  | EFloat.fin a, EFloat.fin b =>
      if b = 0 then
        if 0 < a then EFloat.posInf else if a < 0 then EFloat.negInf else EFloat.nan
      else EFloat.fin (a / b)
  | EFloat.fin _, EFloat.posInf => EFloat.fin 0
  | EFloat.fin _, EFloat.negInf => EFloat.fin 0
  | EFloat.posInf, EFloat.fin b => if 0 ≤ b then EFloat.posInf else EFloat.negInf
  | EFloat.negInf, EFloat.fin b => if 0 ≤ b then EFloat.negInf else EFloat.posInf
  | EFloat.posInf, EFloat.posInf => EFloat.nan
  | EFloat.posInf, EFloat.negInf => EFloat.nan
  | EFloat.negInf, EFloat.posInf => EFloat.nan
  | EFloat.negInf, EFloat.negInf => EFloat.nan

/-- Exponential on extended values: `math.exp` maps negative infinity to
zero and positive infinity to infinity.  Overflow of `math.exp` on large
finite arguments is not modelled; the claim exercised here applies `exp`
at negative infinity only. -/
def expE : EFloat → EFloat
  | EFloat.nan => EFloat.nan
  | EFloat.posInf => EFloat.posInf
  | EFloat.negInf => EFloat.fin 0
  | EFloat.fin a => EFloat.fin (Real.exp a)

/-- Natural power on extended values (`x ** n` with an integer literal
exponent). -/
def powE : EFloat → ℕ → EFloat
  | EFloat.nan, _ => EFloat.nan
  | EFloat.fin a, m => EFloat.fin (a ^ m)
  | EFloat.posInf, m => if m = 0 then EFloat.fin 1 else EFloat.posInf
  | EFloat.negInf, m =>
      if m = 0 then EFloat.fin 1
      else if m % 2 = 0 then EFloat.posInf else EFloat.negInf

/-- Source `calculate_delta` under the degenerate-value semantics: the
same expression tree
`4098 * 0.6108 * math.exp(17.27 * T_mean / (T_mean + 237.3)) / ((T_mean + 237.3) ** 2)`
with every operation interpreted over `EFloat`, as it executes on the
numpy float64 scalars the pipeline feeds it. -/
def calculate_deltaE (T_mean : EFloat) : EFloat :=
  divE
    (mulE (mulE (EFloat.fin 4098) (EFloat.fin 0.6108))
      (expE (divE (mulE (EFloat.fin 17.27) T_mean) (addE T_mean (EFloat.fin 237.3)))))
    (powE (addE T_mean (EFloat.fin 237.3)) 2)

/-- Claim C5: at `Tmean = -237.3` the slope computation hits an unguarded
division by zero and produces a non-finite value (the inner division
yields negative infinity, `exp` collapses it to zero, and the final
`0 / 0` yields nan) instead of signalling an error. -/
theorem c5_delta_nan_at_singularity :
    calculate_deltaE (EFloat.fin (-237.3)) = EFloat.nan := by
  have h0 : (-237.3 : ℝ) + 237.3 = 0 := by norm_num
  norm_num [calculate_deltaE, addE, mulE, divE, expE, powE, h0]

/-- Tabular data standing in for a pandas dataframe; its contents are
irrelevant to the claims about `read_data`. -/
def DataFrame : Type := List (List ℝ)

/-- Python exceptions relevant to the read path. -/
inductive PyError where
  | fileNotFound : PyError
  | otherIoError : PyError
  | unboundLocal : PyError

/-- Source `read_data(file)` (lines 36-47), with the `pd.read_csv` call
supplied as an oracle (either a dataframe or the error it raises).  The
`except FileNotFoundError` and `except IOError` handlers print a message
and fall through to `return df` with the local `df` never assigned; in
Python, evaluating an unassigned local raises `UnboundLocalError`.  The
result is the list of printed messages together with either the returned
dataframe or the exception the call raises. -/
def read_data (file : String) (readCsv : Except PyError DataFrame) :
    List String × Except PyError DataFrame :=
  match readCsv with
  | Except.ok df => ([], Except.ok df)
  | Except.error PyError.fileNotFound =>
      (["File " ++ file ++ " not found."], Except.error PyError.unboundLocal)
  | Except.error PyError.otherIoError =>
      (["An error occurred while reading the file."], Except.error PyError.unboundLocal)
  | Except.error e => ([], Except.error e)

/-- Claim C8 counterexample: on a missing input file, the call does not
hand any dataframe back to `main`; it aborts with the secondary
`UnboundLocalError` raised by the `return df` line, so execution does not
continue with an unbound table reference. -/
theorem c8_read_counterexample :
    (read_data "input.csv" (Except.error PyError.fileNotFound)).2 =
      Except.error PyError.unboundLocal :=
  rfl

/-- Claim C8 (amended): when the input path does not resolve, `read_data`
surfaces a user-visible message and then reaches the `return` of its
never-assigned result variable; evaluating that unbound reference raises
`UnboundLocalError`, so the call aborts with that secondary error rather
than returning a table or a designated read-failure result. -/
theorem c8_read_unbound_on_missing_file (file : String) :
    (read_data file (Except.error PyError.fileNotFound)).1 = ["File " ++ file ++ " not found."] ∧
      (read_data file (Except.error PyError.fileNotFound)).2 =
        Except.error PyError.unboundLocal :=
  ⟨rfl, rfl⟩

end

end Evapo
